import Mathlib

/-!
Shallow embedding of the analytic device-physics core of the GaN MOSFET
simulator (pages/3_Simulation_Interface.py and pages/4_Graphs_and_Trends.py).

The effective (final) definitions of the simulation page are modelled:
`material_properties` (the material catalog dictionary), the material-aware
`mobility_temp_dep` and `bandgap_temp_dep`, `breakdown_voltage_model`, and
`drain_current_model`.  Python floats are modelled as real numbers; the
fractional powers of the source become `Real.rpow`.  The NumPy-vectorized
evaluation of `drain_current_model` over an array of `Vds` values is modelled
over `List ℝ`, with `np.where` and `np.maximum` embedded elementwise.
-/

namespace GaNSim

noncomputable section

/-- Catalog entry of the `material_properties` dictionary: bandgap (eV),
mobility (cm²/V·s), breakdown field (MV/cm), thermal conductivity (W/cm·K),
display color and description. -/
structure MaterialProperties where
  Bandgap : ℝ
  Mobility : ℝ
  Breakdown_Field : ℝ
  Thermal_Conductivity : ℝ
  Color : String
  Description : String

/-- Embedding of the `material_properties` dictionary of
3_Simulation_Interface.py (lines 723-764).  Indexing a Python dict with a
missing key raises `KeyError`; lookup is therefore modelled as an
`Option`-valued function, `none` being the failure case. -/
def material_properties (name : String) : Option MaterialProperties :=
  if name = "GaN" then
    some ⟨3.4, 2000, 3.3, 1.3, "#2ecc71",
      "Wide bandgap semiconductor with high electron mobility"⟩
  else if name = "AlGaN" then
    some ⟨4.0, 1500, 3.5, 1.1, "#3498db",
      "Aluminum Gallium Nitride barrier layer"⟩
  else if name = "SiC" then
    some ⟨3.26, 900, 3.5, 4.9, "#e74c3c",
      "Silicon Carbide substrate with excellent thermal conductivity"⟩
  else if name = "GaAs" then
    some ⟨1.42, 8500, 0.4, 0.55, "#9b59b6",
      "Gallium Arsenide with very high electron mobility"⟩
  else if name = "Si" then
    some ⟨1.12, 1400, 0.3, 1.5, "#f39c12",
      "Traditional Silicon semiconductor material"⟩
  else none

/-- Embedding of the material-aware `mobility_temp_dep` of
3_Simulation_Interface.py (lines 766-774). -/
def mobility_temp_dep (mu_0 T_celsius : ℝ) (material : String) : ℝ :=
  let T_kelvin := T_celsius + 273.15
  if material = "GaN" ∨ material = "AlGaN" then
    mu_0 * (300 / T_kelvin) ^ (1.5 : ℝ)
  else if material = "SiC" then
    mu_0 * (300 / T_kelvin) ^ (2.0 : ℝ)
  else
    mu_0 * (300 / T_kelvin) ^ (1.7 : ℝ)

/-- Embedding of the material-aware `bandgap_temp_dep` of
3_Simulation_Interface.py (lines 776-788): the Varshni relation with the
branch-selected `(alpha, beta)` pair. -/
def bandgap_temp_dep (Eg_0 T_celsius : ℝ) (material : String) : ℝ :=
  let T_kelvin := T_celsius + 273.15
  let p : ℝ × ℝ :=
    if material = "GaN" ∨ material = "AlGaN" then (0.909e-3, 830)
    else if material = "SiC" then (0.0003, 700)
    else (0.0005, 300)
  Eg_0 - (p.1 * T_kelvin ^ 2) / (T_kelvin + p.2)

/-- Embedding of `breakdown_voltage_model` of 3_Simulation_Interface.py
(lines 790-792): `350 * (Eg / 3.4)**2.5 * (thickness / 2e-6)`. -/
def breakdown_voltage_model (Eg : ℝ) (thickness : ℝ := 2e-6) : ℝ :=
  350 * (Eg / 3.4) ^ (2.5 : ℝ) * (thickness / 2e-6)

/-- Embedding of `drain_current_model` of 3_Simulation_Interface.py
(lines 794-809) at a scalar `Vds`. -/
def drain_current_model (mu_eff Vgs Vds Eg_eff T_celsius : ℝ)
    (Vth : ℝ := 2.0) (W : ℝ := 100e-6) (L : ℝ := 1e-6)
    (Cox : ℝ := 1.5e-6) : ℝ :=
  let beta := mu_eff * Cox * (W / L) * 1e-4
  let Vds_sat := Vgs - Vth
  let Id_linear := beta * ((Vgs - Vth) * Vds - 0.5 * Vds ^ 2)
  let Id_sat := 0.5 * beta * (Vgs - Vth) ^ 2 * (1 + 0.02 * Vds)
  let thermal_factor := Real.exp (-(T_celsius - 25) / 150)
  let bandgap_factor := (Eg_eff / 3.4) ^ (0.5 : ℝ)
  let Id := (if Vds < Vds_sat then Id_linear else Id_sat)
    * thermal_factor * bandgap_factor
  let Id2 := if Vgs < Vth then 1e-12 else Id
  max Id2 1e-12

/-- Elementwise `np.where` on boolean/real arrays of equal length. -/
def npWhere : List Bool → List ℝ → List ℝ → List ℝ
  | c :: cs, x :: xs, y :: ys => (if c then x else y) :: npWhere cs xs ys
  | _, _, _ => []

/-- Elementwise `np.maximum` of an array against a scalar. -/
def npMaximum (xs : List ℝ) (s : ℝ) : List ℝ :=
  xs.map (fun x => max x s)

/-- Embedding of `drain_current_model` applied to an array of `Vds` values,
mirroring the NumPy broadcasting of each line of the source: scalar-array
arithmetic maps over the array, `Vds < Vds_sat` is the boolean mask,
`np.where(Vgs < Vth, 1e-12, Id)` broadcasts the scalar condition, and
`np.maximum(Id, 1e-12)` clamps elementwise. -/
def drain_current_model_vec (mu_eff Vgs : ℝ) (Vds : List ℝ)
    (Eg_eff T_celsius Vth W L Cox : ℝ) : List ℝ :=
  let beta := mu_eff * Cox * (W / L) * 1e-4
  let Vds_sat := Vgs - Vth
  let Id_linear := Vds.map (fun v => beta * ((Vgs - Vth) * v - 0.5 * v ^ 2))
  let Id_sat := Vds.map (fun v => 0.5 * beta * (Vgs - Vth) ^ 2 * (1 + 0.02 * v))
  let thermal_factor := Real.exp (-(T_celsius - 25) / 150)
  let bandgap_factor := (Eg_eff / 3.4) ^ (0.5 : ℝ)
  let mask := Vds.map (fun v => decide (v < Vds_sat))
  let Id := (npWhere mask Id_linear Id_sat).map
    (fun x => x * thermal_factor * bandgap_factor)
  let Id2 := if Vgs < Vth then Id.map (fun _ => (1e-12 : ℝ)) else Id
  npMaximum Id2 1e-12

end

/-! ### Helper lemmas -/

/-- On three maps of the same list, `npWhere` acts pointwise. -/
theorem npWhere_map (l : List ℝ) (P : ℝ → Prop) [DecidablePred P]
    (f g : ℝ → ℝ) :
    npWhere (l.map fun v => decide (P v)) (l.map f) (l.map g)
      = l.map (fun v => if P v then f v else g v) := by
  induction l with
  | nil => rfl
  | cons a t ih =>
    simp only [List.map_cons, npWhere, ih, decide_eq_true_eq]

/-- The vectorized drain-current model is the elementwise map of the scalar
model over the `Vds` array. -/
theorem drain_current_model_vec_eq_map (mu Vgs Eg T Vth W L Cox : ℝ)
    (Vds : List ℝ) :
    drain_current_model_vec mu Vgs Vds Eg T Vth W L Cox
      = Vds.map (fun v => drain_current_model mu Vgs v Eg T Vth W L Cox) := by
  simp only [drain_current_model_vec, drain_current_model, npMaximum]
  rw [npWhere_map Vds (fun v => v < Vgs - Vth)]
  by_cases h : Vgs < Vth
  · simp only [if_pos h, List.map_map]
    congr 1
  · simp only [if_neg h, List.map_map]
    congr 1

/-- Strict monotonicity of the Varshni correction term `α x² / (x + β)` in
`x > 0`, for positive material constants. -/
theorem varshni_term_strict_mono (a b : ℝ) (ha : 0 < a) (hb : 0 < b)
    {x y : ℝ} (hx : 0 < x) (hxy : x < y) :
    a * x ^ 2 / (x + b) < a * y ^ 2 / (y + b) := by
  have hy : 0 < y := lt_trans hx hxy
  have hxb : 0 < x + b := by linarith
  have hyb : 0 < y + b := by linarith
  rw [div_lt_div_iff₀ hxb hyb]
  have key : 0 < a * ((y - x) * (x * y + b * (x + y))) := by
    have h1 : 0 < y - x := sub_pos.mpr hxy
    have h2 : 0 < x * y + b * (x + y) := by positivity
    positivity
  nlinarith [key]

/-! ### Claims -/

/-- C1: for every base mobility `mu0 > 0`, temperature above absolute zero,
and material name, `mobility_temp_dep` returns
`mu0 * (300 / T_kelvin) ^ n` with `T_kelvin = T_C + 273.15` and exponent
`n = 1.5` for GaN and AlGaN, `n = 2.0` for SiC, `n = 1.7` otherwise. -/
theorem mobility_temp_dep_spec (mu0 T : ℝ) (material : String)
    (hmu : 0 < mu0) (hT : -273.15 < T) :
    mobility_temp_dep mu0 T material
      = mu0 * (300 / (T + 273.15)) ^
          (if material = "GaN" ∨ material = "AlGaN" then (1.5 : ℝ)
           else if material = "SiC" then (2.0 : ℝ) else (1.7 : ℝ)) := by
  simp only [mobility_temp_dep]
  split_ifs <;> rfl

/-- Witness for C1 at `mu0 = 1500`, `T = 25`, material GaN. -/
theorem mobility_temp_dep_spec_witness :
    mobility_temp_dep 1500 25 "GaN"
      = 1500 * (300 / (25 + 273.15)) ^ (1.5 : ℝ) := by
  have h := mobility_temp_dep_spec 1500 25 "GaN" (by norm_num) (by norm_num)
  simpa using h

/-- C2: for every base bandgap, temperature above absolute zero and material,
`bandgap_temp_dep` returns the unclamped Varshni value
`Eg0 - α T_k² / (T_k + β)` with `T_k = T_C + 273.15` and `(α, β)` equal to
`(9.09e-4, 830)` for GaN/AlGaN, `(3.0e-4, 700)` for SiC, `(5.0e-4, 300)`
otherwise.  The equality holds for every `Eg0`, including values making the
right-hand side negative, so no clamping at 0 takes place. -/
theorem bandgap_temp_dep_spec (Eg0 T : ℝ) (material : String)
    (hT : -273.15 < T) :
    bandgap_temp_dep Eg0 T material
      = Eg0 -
        (if material = "GaN" ∨ material = "AlGaN" then (9.09e-4 : ℝ)
         else if material = "SiC" then (3.0e-4 : ℝ) else (5.0e-4 : ℝ))
          * (T + 273.15) ^ 2 /
        ((T + 273.15) +
          (if material = "GaN" ∨ material = "AlGaN" then (830 : ℝ)
           else if material = "SiC" then (700 : ℝ) else (300 : ℝ))) := by
  simp only [bandgap_temp_dep]
  split_ifs <;> norm_num

/-- Witness for C2 at `Eg0 = 3.4`, `T = 25`, material SiC. -/
theorem bandgap_temp_dep_spec_witness :
    bandgap_temp_dep 3.4 25 "SiC"
      = 3.4 - (3.0e-4 : ℝ) * (25 + 273.15) ^ 2 / ((25 + 273.15) + 700) := by
  have h := bandgap_temp_dep_spec 3.4 25 "SiC" (by norm_num)
  simpa using h

/-- C3: for every valid input (`mu_eff > 0`, `Eg_eff > 0`, `W > 0`, `L > 0`,
`Cox > 0`, `Vds ≥ 0`, any `Vgs` and `Vth`, temperature in `[-50, 500]` °C),
the drain current is at least `1e-12` A, and equals `1e-12` A whenever
`Vgs < Vth`. -/
theorem drain_current_model_floor (mu Vgs Vds Eg T Vth W L Cox : ℝ)
    (hmu : 0 < mu) (hEg : 0 < Eg) (hW : 0 < W) (hL : 0 < L) (hCox : 0 < Cox)
    (hVds : 0 ≤ Vds) (hT1 : -50 ≤ T) (hT2 : T ≤ 500) :
    1e-12 ≤ drain_current_model mu Vgs Vds Eg T Vth W L Cox ∧
      (Vgs < Vth → drain_current_model mu Vgs Vds Eg T Vth W L Cox = 1e-12) := by
  constructor
  · exact le_max_right _ _
  · intro h
    simp [drain_current_model, if_pos h]

/-- Witness for C3 at `mu = 1000`, `Vgs = 1 < Vth = 2`, `Vds = 1`,
`Eg = 3.4`, `T = 25`, `W = 1e-4`, `L = 1e-6`, `Cox = 1.5e-6`. -/
theorem drain_current_model_floor_witness :
    1e-12 ≤ drain_current_model 1000 1 1 3.4 25 2 1e-4 1e-6 1.5e-6 ∧
      drain_current_model 1000 1 1 3.4 25 2 1e-4 1e-6 1.5e-6 = 1e-12 := by
  have h := drain_current_model_floor 1000 1 1 3.4 25 2 1e-4 1e-6 1.5e-6
    (by norm_num) (by norm_num) (by norm_num) (by norm_num) (by norm_num)
    (by norm_num) (by norm_num) (by norm_num)
  exact ⟨h.1, h.2 (by norm_num)⟩

/-- C4: for `Vgs ≥ Vth`, the drain current is the floor-clamp of the branch
value — `beta * ((Vgs-Vth)*Vds - 0.5*Vds²)` when `Vds < Vgs - Vth`, else
`0.5 * beta * (Vgs-Vth)² * (1 + 0.02*Vds)` — multiplied by the thermal factor
`exp(-(T-25)/150)` and the bandgap factor `(Eg/3.4)^0.5`, with
`beta = mu_eff * Cox * (W/L) * 1e-4`. -/
theorem drain_current_model_branches (mu Vgs Vds Eg T Vth W L Cox : ℝ)
    (h : Vth ≤ Vgs) :
    drain_current_model mu Vgs Vds Eg T Vth W L Cox
      = max ((if Vds < Vgs - Vth then
            (mu * Cox * (W / L) * 1e-4) * ((Vgs - Vth) * Vds - 0.5 * Vds ^ 2)
          else
            0.5 * (mu * Cox * (W / L) * 1e-4) * (Vgs - Vth) ^ 2
              * (1 + 0.02 * Vds))
          * Real.exp (-(T - 25) / 150) * (Eg / 3.4) ^ (0.5 : ℝ)) 1e-12 := by
  simp only [drain_current_model, if_neg (not_lt.mpr h)]

/-- Witness for C4 at `Vgs = 5 ≥ Vth = 2`, `Vds = 1`. -/
theorem drain_current_model_branches_witness :
    drain_current_model 1500 5 1 3.4 25 2 100e-6 1e-6 1.5e-6
      = max ((if (1 : ℝ) < 5 - 2 then
            ((1500 : ℝ) * 1.5e-6 * (100e-6 / 1e-6) * 1e-4)
              * ((5 - 2) * 1 - 0.5 * 1 ^ 2)
          else
            0.5 * ((1500 : ℝ) * 1.5e-6 * (100e-6 / 1e-6) * 1e-4) * (5 - 2) ^ 2
              * (1 + 0.02 * 1))
          * Real.exp (-((25 : ℝ) - 25) / 150) * ((3.4 : ℝ) / 3.4) ^ (0.5 : ℝ))
        1e-12 :=
  drain_current_model_branches 1500 5 1 3.4 25 2 100e-6 1e-6 1.5e-6
    (by norm_num)

/-- C5: for `Eg > 0` and `thickness > 0`, the breakdown voltage equals
`350 * (Eg/3.4)^2.5 * (thickness/2e-6)`, and doubling `Eg` at fixed thickness
multiplies the result by exactly `2^2.5`. -/
theorem breakdown_voltage_model_spec (Eg th : ℝ) (hEg : 0 < Eg)
    (hth : 0 < th) :
    breakdown_voltage_model Eg th
        = 350 * (Eg / 3.4) ^ (2.5 : ℝ) * (th / 2e-6) ∧
      breakdown_voltage_model (2 * Eg) th
        = 2 ^ (2.5 : ℝ) * breakdown_voltage_model Eg th := by
  refine ⟨rfl, ?_⟩
  simp only [breakdown_voltage_model]
  have h1 : (2 * Eg / 3.4 : ℝ) = 2 * (Eg / 3.4) := by ring
  rw [h1, Real.mul_rpow (by norm_num) (by positivity)]
  ring

/-- Witness for C5 at `Eg = 3.4`, `thickness = 2e-6`. -/
theorem breakdown_voltage_model_spec_witness :
    breakdown_voltage_model 3.4 2e-6
        = 350 * ((3.4 : ℝ) / 3.4) ^ (2.5 : ℝ) * ((2e-6 : ℝ) / 2e-6) ∧
      breakdown_voltage_model (2 * 3.4) 2e-6
        = 2 ^ (2.5 : ℝ) * breakdown_voltage_model 3.4 2e-6 :=
  breakdown_voltage_model_spec 3.4 2e-6 (by norm_num) (by norm_num)

/-- C6: the material catalog returns a record exactly for the names GaN,
AlGaN, SiC, GaAs, Si, and fails (returns `none`, the Python `KeyError` /
`UnknownMaterial` case) for every other name, in particular for "InP". -/
theorem material_properties_lookup_spec :
    (∀ name : String,
        (material_properties name).isSome
          ↔ name ∈ ["GaN", "AlGaN", "SiC", "GaAs", "Si"]) ∧
      material_properties "InP" = none := by
  constructor
  · intro name
    simp only [material_properties]
    split_ifs <;> simp_all
  · rfl

/-- C7 counterexample: at `Eg_eff = 0` (so `Eg_eff ≤ 0`) the breakdown-voltage
operation does not fail — it returns the numeric value `0`. -/
theorem breakdown_voltage_zero_counterexample :
    breakdown_voltage_model 0 2e-6 = 0 := by
  simp only [breakdown_voltage_model]
  rw [zero_div, Real.zero_rpow (by norm_num)]
  ring

/-- C7 amended: the breakdown-voltage operation performs no validation of its
bandgap argument and never raises: at `Eg_eff = 0` it returns the numeric
value `0` for every thickness. -/
theorem breakdown_voltage_no_validation (th : ℝ) :
    breakdown_voltage_model 0 th = 0 := by
  simp only [breakdown_voltage_model]
  rw [zero_div, Real.zero_rpow (by norm_num)]
  ring

/-- C8: for fixed `Eg0` and material, the bandgap is strictly decreasing in
temperature over `[-50, 500]` °C. -/
theorem bandgap_temp_dep_strict_decreasing (Eg0 : ℝ) (material : String)
    (T1 T2 : ℝ) (h1 : -50 ≤ T1) (hlt : T1 < T2) (h2 : T2 ≤ 500) :
    bandgap_temp_dep Eg0 T2 material < bandgap_temp_dep Eg0 T1 material := by
  have hx : (0 : ℝ) < T1 + 273.15 := by linarith
  have hxy : T1 + 273.15 < T2 + 273.15 := by linarith
  simp only [bandgap_temp_dep]
  split_ifs <;>
    [skip; skip; skip] <;>
    simp only [] <;>
    nlinarith [varshni_term_strict_mono 0.909e-3 830 (by norm_num)
        (by norm_num) hx hxy,
      varshni_term_strict_mono 0.0003 700 (by norm_num) (by norm_num) hx hxy,
      varshni_term_strict_mono 0.0005 300 (by norm_num) (by norm_num) hx hxy]

/-- Witness for C8 at `Eg0 = 3.4`, material GaN, `T1 = 0 < T2 = 100`. -/
theorem bandgap_temp_dep_strict_decreasing_witness :
    bandgap_temp_dep 3.4 100 "GaN" < bandgap_temp_dep 3.4 0 "GaN" :=
  bandgap_temp_dep_strict_decreasing 3.4 "GaN" 0 100 (by norm_num)
    (by norm_num) (by norm_num)

/-- C9: on an array of `Vds` values, the vectorized drain-current model
produces an array of the same length whose `i`-th element is the scalar model
evaluated at the `i`-th `Vds`, all other arguments held fixed. -/
theorem drain_current_model_vectorized (mu Vgs Eg T Vth W L Cox : ℝ)
    (Vds : List ℝ) :
    (drain_current_model_vec mu Vgs Vds Eg T Vth W L Cox).length
        = Vds.length ∧
      ∀ i : ℕ,
        (drain_current_model_vec mu Vgs Vds Eg T Vth W L Cox)[i]?
          = (Vds[i]?).map
              (fun v => drain_current_model mu Vgs v Eg T Vth W L Cox) := by
  rw [drain_current_model_vec_eq_map]
  exact ⟨List.length_map _ _, fun i => List.getElem?_map _ _ _⟩

/-- C10: at the threshold boundary `Vgs = Vth` and any `Vds ≥ 0`, the
saturation branch is taken, the saturation current vanishes, and the floor
clamp yields exactly `1e-12` A. -/
theorem drain_current_model_at_threshold (mu Vds Eg T Vth W L Cox : ℝ)
    (hVds : 0 ≤ Vds) :
    drain_current_model mu Vth Vds Eg T Vth W L Cox = 1e-12 := by
  simp only [drain_current_model, sub_self, if_neg (lt_irrefl Vth)]
  rw [if_neg (not_lt.mpr hVds)]
  norm_num

/-- Witness for C10 at `Vds = 1`, `Vth = 2`. -/
theorem drain_current_model_at_threshold_witness :
    drain_current_model 1500 2 1 3.4 25 2 100e-6 1e-6 1.5e-6 = 1e-12 :=
  drain_current_model_at_threshold 1500 1 3.4 25 2 100e-6 1e-6 1.5e-6
    (by norm_num)

end GaNSim
